import Mathlib

/-!
Verification of the DHT22 sensor driver (src/dht22.c).

The C module bit-bangs a GPIO pin to read a DHT22 humidity/temperature
sensor, retries failed reads, and caches the latest successful reading in
mutex-guarded globals.  We embed it shallowly:

* the electrical behaviour of the sensor during one transaction is a list
  of pulse durations (microseconds), one entry per level-hold interval, in
  the order the capture loop of dht22_read_single_attempt measures them;
* the module's global variables (g_temperature_c, g_humidity,
  g_data_available, g_gpioPin, g_terminate_thread) form an explicit state
  record threaded through the public API functions;
* the volatile flag g_terminate_thread, which another thread may set at
  any time, is modelled inside the retry loop as a function from the index
  of the read (the loop performs a sequence of reads of the flag) to the
  value observed at that read;
* C float arithmetic is modelled over the rationals, so /10.0 is exact
  division by 10.
-/

namespace DHT22

/-- #define MAX_TIMINGS 85 -/
def MAX_TIMINGS : Nat := 85

/-- #define SENSOR_POLL_INTERVAL_SEC 10 -/
def SENSOR_POLL_INTERVAL_SEC : Nat := 10

/-- #define MAX_READ_ATTEMPTS 5 -/
def MAX_READ_ATTEMPTS : Nat := 5

/-- The capture loop of dht22_read_single_attempt (the for over
i < MAX_TIMINGS).  The input list holds the successive pulse durations the
busy-wait would measure; iteration i measures pulse i.  The loop stops when
i reaches MAX_TIMINGS, or when a pulse lasts 255 us or more (counter hits
255 and the loop breaks before recording a bit; an exhausted list means the
line stopped toggling, which in C also drives counter to 255).  Pulses with
i >= 4 and i % 2 == 0 each yield one data bit: 1 exactly when the duration
exceeds 25 us. -/
def captureBits : List Nat → Nat → List Bool
  | [], _ => []
  | d :: rest, i =>
    if MAX_TIMINGS ≤ i then []
    else if 255 ≤ d then []
    else if 4 ≤ i ∧ i % 2 = 0 then decide (25 < d) :: captureBits rest (i + 1)
    else captureBits rest (i + 1)

/-- MSB-first accumulation of bits into a byte, as done by
data[j/8] <<= 1; if (counter > 25) data[j/8] |= 1. -/
def packByte (bits : List Bool) : Nat :=
  bits.foldl (fun acc b => 2 * acc + (if b then 1 else 0)) 0

/-- Final value of data[k] after the capture loop: byte k receives data
bits 8k .. 8k+7 (fewer if the capture ended early), shifted in MSB-first. -/
def dhtByte (pulses : List Nat) (k : Nat) : Nat :=
  packByte (((captureBits pulses 0).drop (8 * k)).take 8)

/-- Return value and out-parameters of dht22_read_single_attempt. -/
structure ReadResult where
  ret : Nat
  temperature : ℚ
  humidity : ℚ
  deriving DecidableEq

/-- dht22_read_single_attempt: capture the pulse train, then
if ((j >= 40) && (data[4] == ((data[0]+data[1]+data[2]+data[3]) & 0xFF)))
publish h = ((data[0] << 8) + data[1]) / 10.0 and
c = (((data[2] & 0x7F) << 8) + data[3]) / 10.0, negated when data[2] & 0x80,
and return 0; otherwise return 1 with the out-parameters still holding the
zeros written at function entry.  (The final return 2 of the C function is
dead code: both branches of the if/else return first.)  Each data byte is
below 256, so & 0xFF is % 256, & 0x7F is % 128, and & 0x80 tests bit 7. -/
def dht22_read_single_attempt (pulses : List Nat) : ReadResult :=
  if 40 ≤ (captureBits pulses 0).length ∧
      dhtByte pulses 4 =
        (dhtByte pulses 0 + dhtByte pulses 1 + dhtByte pulses 2 +
          dhtByte pulses 3) % 256 then
    { ret := 0
      temperature :=
        if (dhtByte pulses 2).testBit 7 then
          -(((dhtByte pulses 2 % 128) * 256 + dhtByte pulses 3 : ℕ) / 10 : ℚ)
        else (((dhtByte pulses 2 % 128) * 256 + dhtByte pulses 3 : ℕ) / 10 : ℚ)
      humidity := (((dhtByte pulses 0) * 256 + dhtByte pulses 1 : ℕ) / 10 : ℚ) }
  else
    { ret := 1, temperature := 0, humidity := 0 }

/-- The module's global state: g_temperature_c, g_humidity,
g_data_available, g_gpioPin, g_terminate_thread. -/
structure DhtState where
  temperature : ℚ
  humidity : ℚ
  available : Bool
  pin : Int
  termFlag : Bool
  deriving DecidableEq

/-- The initial values of the globals. -/
def initState : DhtState :=
  { temperature := 0, humidity := 0, available := false, pin := -1,
    termFlag := false }

/-- Return value and out-parameters of dht22_get_last_valid_reading:
when g_data_available is unset it returns 1 without touching the
out-parameters (reading = none); otherwise it copies the cached reading
under the mutex and returns 0. -/
structure GetResult where
  ret : Nat
  reading : Option (ℚ × ℚ)
  deriving DecidableEq

/-- dht22_get_last_valid_reading. -/
def dht22_get_last_valid_reading (s : DhtState) : GetResult :=
  if s.available then { ret := 0, reading := some (s.temperature, s.humidity) }
  else { ret := 1, reading := none }

/-- Result of dht22_start_polling: its int return value, the global state
afterwards, and whether a polling thread was spawned. -/
structure StartResult where
  ret : Int
  state : DhtState
  spawned : Bool
  deriving DecidableEq

/-- dht22_start_polling.  createFails models the outcome of the external
pthread_create call.  If g_gpioPin != -1 the function prints a notice and
returns 0 at once; otherwise it records the pin, clears the terminate
flag, and spawns the thread, undoing the pin (only) if creation fails. -/
def dht22_start_polling (s : DhtState) (gpioPin : Int) (createFails : Bool) :
    StartResult :=
  if s.pin ≠ -1 then { ret := 0, state := s, spawned := false }
  else
    let s1 : DhtState := { s with pin := gpioPin, termFlag := false }
    if createFails then
      { ret := -1, state := { s1 with pin := -1 }, spawned := false }
    else { ret := 0, state := s1, spawned := true }

/-- dht22_terminate: when a pin is configured it sets g_terminate_thread,
joins (or cancels) the polling thread, then clears g_gpioPin and
g_data_available; the cached float values are not rewritten.  When no pin
is configured the globals are untouched.  (The gpioTerminate call is
external GPIO teardown, outside the module state.) -/
def dht22_terminate (s : DhtState) : DhtState :=
  if s.pin ≠ -1 then
    { s with termFlag := true, pin := -1, available := false }
  else s

/-- Trace of one poll cycle (the retry loop inside dht22_polling_thread):
how many calls to dht22_read_single_attempt were made, how many 200 ms
inter-attempt sleeps ran, and the reading written to the shared globals on
the first success (none when every attempt made failed). -/
structure CycleTrace where
  attemptsMade : Nat
  sleeps : Nat
  published : Option (ℚ × ℚ)
  deriving DecidableEq

/-- Body of the retry loop of dht22_polling_thread.  The C loop is
for (attempt = 0; attempt < MAX_READ_ATTEMPTS && !g_terminate_thread; ...);
we model it by walking the list of remaining attempt indices.  traces a is
the pulse train the sensor produces on attempt a; term n is the value of
the volatile g_terminate_thread at its n-th read during this cycle (the
loop condition reads it once per iteration, and the sleep guard reads it
again except after the last attempt, where attempt < MAX_READ_ATTEMPTS - 1
short-circuits). -/
def pollCycleGo (traces : Nat → List Nat) (term : Nat → Bool) :
    List Nat → Nat → Nat → Nat → CycleTrace
  | [], made, _, slept => { attemptsMade := made, sleeps := slept, published := none }
  | attempt :: rest, made, readIdx, slept =>
    if term readIdx then
      { attemptsMade := made, sleeps := slept, published := none }
    else
      if (dht22_read_single_attempt (traces attempt)).ret = 0 then
        { attemptsMade := made + 1, sleeps := slept,
          published := some ((dht22_read_single_attempt (traces attempt)).temperature,
            (dht22_read_single_attempt (traces attempt)).humidity) }
      else if attempt < MAX_READ_ATTEMPTS - 1 then
        if term (readIdx + 1) then
          pollCycleGo traces term rest (made + 1) (readIdx + 2) slept
        else
          pollCycleGo traces term rest (made + 1) (readIdx + 2) (slept + 1)
      else pollCycleGo traces term rest (made + 1) (readIdx + 1) slept

/-- One poll cycle: attempts 0 .. MAX_READ_ATTEMPTS - 1. -/
def pollCycle (traces : Nat → List Nat) (term : Nat → Bool) : CycleTrace :=
  pollCycleGo traces term [0, 1, 2, 3, 4] 0 0 0

/-- Effect of one poll cycle on the shared globals: a successful attempt
stores its reading under the mutex and sets g_data_available; a cycle with
no success leaves them alone. -/
def applyCycle (s : DhtState) (t : CycleTrace) : DhtState :=
  match t.published with
  | some r => { s with temperature := r.1, humidity := r.2, available := true }
  | none => s

/-- MSB-first bits of one byte. -/
def byteToBits (b : Nat) : List Bool :=
  (List.range 8).map (fun k => b.testBit (7 - k))

/-- A well-formed electrical trace for a 5-byte frame: 4 handshake pulses,
then for each data bit a high pulse (70 us for 1, 20 us for 0) followed by
a 50 us separator. -/
def framePulses (bytes : List Nat) : List Nat :=
  [50, 50, 50, 50] ++
    (((bytes.map byteToBits).flatten).map
      (fun b => [if b then 70 else 20, 50])).flatten

/-- A known-good DHT22 frame: bytes 0x02 0x8C 0x01 0x5D with correct
checksum 0xEC; humidity 65.2 %, temperature 34.9 C. -/
def goodPulses : List Nat := framePulses [2, 140, 1, 93, 236]

/-- The same frame with the checksum byte corrupted to 0xE5. -/
def badPulses : List Nat := framePulses [2, 140, 1, 93, 229]

/-! ## Helper lemmas -/

/-- The capture loop, started at index i on a pulse train with no pulse
reaching the 255 us cap, records one bit per pulse at the indices i that
satisfy 4 ≤ i and i % 2 = 0, among the first MAX_TIMINGS - i pulses. -/
theorem captureBits_characterization (pulses : List Nat) :
    ∀ i, (∀ d ∈ pulses, d < 255) →
      captureBits pulses i =
        ((pulses.take (MAX_TIMINGS - i)).enumFrom i).filterMap
          (fun p =>
            if 4 ≤ p.1 ∧ p.1 % 2 = 0 then some (decide (25 < p.2)) else none) := by
  induction pulses with
  | nil => intro i _; simp [captureBits]
  | cons d rest ih =>
    intro i hd
    have hdl : d < 255 := hd d (List.mem_cons_self d rest)
    have hrest : ∀ x ∈ rest, x < 255 := fun x hx => hd x (List.mem_cons_of_mem d hx)
    by_cases hi : MAX_TIMINGS ≤ i
    · have h0 : MAX_TIMINGS - i = 0 := Nat.sub_eq_zero_of_le hi
      simp [captureBits, hi, h0]
    · have hsub : MAX_TIMINGS - i = (MAX_TIMINGS - (i + 1)) + 1 := by
        simp only [MAX_TIMINGS] at hi ⊢; omega
      rw [hsub]
      simp only [captureBits, if_neg hi, if_neg (Nat.not_le.mpr hdl),
        List.take_succ_cons, List.enumFrom_cons, List.filterMap_cons]
      by_cases hc : 4 ≤ i ∧ i % 2 = 0
      · simp only [if_pos hc, ih (i + 1) hrest]
      · simp only [if_neg hc, ih (i + 1) hrest]

/-- A poll cycle makes at most made + (remaining attempts) calls. -/
theorem pollCycleGo_attempts_le (traces : Nat → List Nat) (term : Nat → Bool) :
    ∀ (l : List Nat) (made readIdx slept : Nat),
      (pollCycleGo traces term l made readIdx slept).attemptsMade ≤
        made + l.length := by
  intro l
  induction l with
  | nil => intro made readIdx slept; simp [pollCycleGo]
  | cons a rest ih =>
    intro made readIdx slept
    simp only [pollCycleGo, List.length_cons]
    split
    · simp
    · split
      · simp
      · split
        · split
          · exact le_trans (ih (made + 1) (readIdx + 2) slept) (by omega)
          · exact le_trans (ih (made + 1) (readIdx + 2) (slept + 1)) (by omega)
        · exact le_trans (ih (made + 1) (readIdx + 1) slept) (by omega)

/-- If every attempt the loop could make fails, no reading is published. -/
theorem pollCycleGo_published_none (traces : Nat → List Nat) (term : Nat → Bool) :
    ∀ (l : List Nat) (made readIdx slept : Nat),
      (∀ a ∈ l, (dht22_read_single_attempt (traces a)).ret ≠ 0) →
      (pollCycleGo traces term l made readIdx slept).published = none := by
  intro l
  induction l with
  | nil => intro made readIdx slept _; simp [pollCycleGo]
  | cons a rest ih =>
    intro made readIdx slept hfail
    have ha : (dht22_read_single_attempt (traces a)).ret ≠ 0 :=
      hfail a (List.mem_cons_self a rest)
    have hr : ∀ x ∈ rest, (dht22_read_single_attempt (traces x)).ret ≠ 0 :=
      fun x hx => hfail x (List.mem_cons_of_mem a hx)
    simp only [pollCycleGo]
    split
    · rfl
    · split
      · split
        · exact ih (made + 1) (readIdx + 2) slept hr
        · exact ih (made + 1) (readIdx + 2) (slept + 1) hr
      · exact ih (made + 1) (readIdx + 1) slept hr

/-! ## Claims -/

/-- Claim C1: for every captured pulse sequence that yields exactly 40 data
bits forming bytes b0..b4 with b4 = (b0+b1+b2+b3) mod 256, the
single-attempt read returns 0 (success) and sets humidity to
((b0 shl 8) + b1)/10 and temperature to (((b2 mod 128) shl 8) + b3)/10,
negated exactly when bit 7 of b2 is set. -/
theorem C1_decode_success (pulses : List Nat)
    (h40 : (captureBits pulses 0).length = 40)
    (hchk : dhtByte pulses 4 =
      (dhtByte pulses 0 + dhtByte pulses 1 + dhtByte pulses 2 +
        dhtByte pulses 3) % 256) :
    (dht22_read_single_attempt pulses).ret = 0 ∧
    (dht22_read_single_attempt pulses).humidity =
      (((dhtByte pulses 0) * 256 + dhtByte pulses 1 : ℕ) / 10 : ℚ) ∧
    (dht22_read_single_attempt pulses).temperature =
      (if (dhtByte pulses 2).testBit 7 then
        -((((dhtByte pulses 2 % 128) * 256 + dhtByte pulses 3 : ℕ) / 10 : ℚ))
      else (((dhtByte pulses 2 % 128) * 256 + dhtByte pulses 3 : ℕ) / 10 : ℚ)) := by
  have hc : 40 ≤ (captureBits pulses 0).length ∧
      dhtByte pulses 4 =
        (dhtByte pulses 0 + dhtByte pulses 1 + dhtByte pulses 2 +
          dhtByte pulses 3) % 256 := ⟨h40.ge, hchk⟩
  unfold dht22_read_single_attempt
  rw [if_pos hc]
  exact ⟨rfl, rfl, rfl⟩

/-- Witness for C1 at the known-good frame 0x02 0x8C 0x01 0x5D 0xEC. -/
theorem C1_decode_success_witness :
    (captureBits goodPulses 0).length = 40 ∧
    dhtByte goodPulses 4 =
      (dhtByte goodPulses 0 + dhtByte goodPulses 1 + dhtByte goodPulses 2 +
        dhtByte goodPulses 3) % 256 ∧
    (dht22_read_single_attempt goodPulses).ret = 0 :=
  ⟨by decide, by decide, (C1_decode_success goodPulses (by decide) (by decide)).1⟩

/-- Claim C2 (code bug): the claim says a capture with fewer than 40 data
bits yields a TimeoutFailure distinct from ChecksumFailure, and the C
function even carries a dead "return 2; // read fail (timeout)" for it,
but the if/else returns 1 (the checksum-failure code) first on every such
input.  Here a 10-pulse train (3 data bits) returns 1, the same value as
a full 40-bit frame with a corrupted checksum. -/
theorem C2_short_capture_returns_checksum_code :
    (captureBits (List.replicate 10 30) 0).length < 40 ∧
    (dht22_read_single_attempt (List.replicate 10 30)).ret = 1 ∧
    (dht22_read_single_attempt (List.replicate 10 30)).ret ≠ 2 ∧
    (dht22_read_single_attempt (List.replicate 10 30)).ret =
      (dht22_read_single_attempt badPulses).ret := by decide

/-- Claim C3: a 40-bit capture whose checksum byte mismatches returns 1
(ChecksumFailure), never 0 (Success), and leaves the out-parameters at the
zeros written on entry. -/
theorem C3_checksum_mismatch (pulses : List Nat)
    (h40 : (captureBits pulses 0).length = 40)
    (hbad : dhtByte pulses 4 ≠
      (dhtByte pulses 0 + dhtByte pulses 1 + dhtByte pulses 2 +
        dhtByte pulses 3) % 256) :
    (dht22_read_single_attempt pulses).ret = 1 ∧
    (dht22_read_single_attempt pulses).ret ≠ 0 ∧
    (dht22_read_single_attempt pulses).temperature = 0 ∧
    (dht22_read_single_attempt pulses).humidity = 0 := by
  unfold dht22_read_single_attempt
  rw [if_neg (fun h => hbad h.2)]
  exact ⟨rfl, one_ne_zero, rfl, rfl⟩

/-- Witness for C3 at the good frame with checksum corrupted to 0xE5. -/
theorem C3_checksum_mismatch_witness :
    (captureBits badPulses 0).length = 40 ∧
    dhtByte badPulses 4 ≠
      (dhtByte badPulses 0 + dhtByte badPulses 1 + dhtByte badPulses 2 +
        dhtByte badPulses 3) % 256 ∧
    (dht22_read_single_attempt badPulses).ret = 1 :=
  ⟨by decide, by decide, (C3_checksum_mismatch badPulses (by decide) (by decide)).1⟩

/-- Claim C4: the decoder ignores the first 4 pulses, turns every second
pulse thereafter (indices 4, 6, 8, ...) into one data bit, among at most
MAX_TIMINGS pulses, with value 1 exactly when the duration exceeds 25 us,
and packs bits into bytes MSB-first. -/
theorem C4_bit_extraction (pulses : List Nat)
    (hd : ∀ d ∈ pulses, d < 255) :
    captureBits pulses 0 =
      ((pulses.take MAX_TIMINGS).enumFrom 0).filterMap
        (fun p =>
          if 4 ≤ p.1 ∧ p.1 % 2 = 0 then some (decide (25 < p.2)) else none) ∧
    ∀ b0 b1 b2 b3 b4 b5 b6 b7 : Bool,
      packByte [b0, b1, b2, b3, b4, b5, b6, b7] =
        128 * (if b0 then 1 else 0) + 64 * (if b1 then 1 else 0) +
        32 * (if b2 then 1 else 0) + 16 * (if b3 then 1 else 0) +
        8 * (if b4 then 1 else 0) + 4 * (if b5 then 1 else 0) +
        2 * (if b6 then 1 else 0) + (if b7 then 1 else 0) := by
  constructor
  · have h := captureBits_characterization pulses 0 hd
    simpa using h
  · decide

/-- Witness for C4 at the known-good frame. -/
theorem C4_bit_extraction_witness :
    captureBits goodPulses 0 =
      ((goodPulses.take MAX_TIMINGS).enumFrom 0).filterMap
        (fun p =>
          if 4 ≤ p.1 ∧ p.1 % 2 = 0 then some (decide (25 < p.2)) else none) :=
  (C4_bit_extraction goodPulses (by decide)).1

/-- Claim C9: the single-attempt read returns only 0 or 1; the return
code 2 is unreachable, and a capture with fewer than 40 data bits returns
1, the same value as a checksum mismatch. -/
theorem C9_return_codes (pulses : List Nat) :
    ((dht22_read_single_attempt pulses).ret = 0 ∨
      (dht22_read_single_attempt pulses).ret = 1) ∧
    ((captureBits pulses 0).length < 40 →
      (dht22_read_single_attempt pulses).ret = 1) := by
  unfold dht22_read_single_attempt
  by_cases hc : 40 ≤ (captureBits pulses 0).length ∧
      dhtByte pulses 4 =
        (dhtByte pulses 0 + dhtByte pulses 1 + dhtByte pulses 2 +
          dhtByte pulses 3) % 256
  · rw [if_pos hc]
    exact ⟨Or.inl rfl, fun hlt => absurd hlt (Nat.not_lt.mpr hc.1)⟩
  · rw [if_neg hc]
    exact ⟨Or.inr rfl, fun _ => rfl⟩

/-- Witness for C9 at the empty pulse train (0 data bits). -/
theorem C9_return_codes_witness :
    (captureBits ([] : List Nat) 0).length < 40 ∧
    (dht22_read_single_attempt ([] : List Nat)).ret = 1 :=
  ⟨by decide, (C9_return_codes []).2 (by decide)⟩

/-- Claim C5 counterexample: the claim says a second start_polling returns
the AlreadyRunning error, but with a pin already configured (pin 4 here)
dht22_start_polling returns 0 — the very value a successful fresh start
returns — so no distinct error is reported.  (The code deliberately
prints a notice and "return 0; // Already started".) -/
theorem C5_counterexample :
    (dht22_start_polling ⟨3, 6, true, 4, false⟩ 17 false).ret = 0 ∧
    (dht22_start_polling initState 17 false).ret = 0 ∧
    (dht22_start_polling ⟨3, 6, true, 4, false⟩ 17 false).ret =
      (dht22_start_polling initState 17 false).ret := by decide

/-- Claim C5 as amended: when a pin is already active, start_polling
returns 0 (the success code, not a distinct error), does not spawn a
second polling loop, and leaves the whole module state unchanged. -/
theorem C5_already_started (s : DhtState) (gpioPin : Int) (createFails : Bool)
    (h : s.pin ≠ -1) :
    dht22_start_polling s gpioPin createFails =
      { ret := 0, state := s, spawned := false } := by
  unfold dht22_start_polling
  rw [if_pos h]

/-- Witness for the amended C5 with pin 4 active. -/
theorem C5_already_started_witness :
    (⟨3, 6, true, 4, false⟩ : DhtState).pin ≠ -1 ∧
    dht22_start_polling ⟨3, 6, true, 4, false⟩ 17 false =
      { ret := 0, state := ⟨3, 6, true, 4, false⟩, spawned := false } :=
  ⟨by decide, C5_already_started ⟨3, 6, true, 4, false⟩ 17 false (by decide)⟩

/-- Claim C6: in one poll cycle the retry loop makes at most
MAX_READ_ATTEMPTS = 5 calls to the single-attempt read; it stops on the
first success (k failures before a success at attempt k give exactly k+1
attempts and k inter-attempt sleeps, publishing that attempt's reading);
when every attempt fails it makes 5 attempts with only 4 sleeps (none
after the last); and the cancellation flag is checked between attempts:
if the flag reads false up to read 2k-1 and true at read 2k (the loop
condition before attempt k), the loop stops after k attempts. -/
theorem C6_retry_policy (traces : Nat → List Nat) (term : Nat → Bool) :
    (pollCycle traces term).attemptsMade ≤ MAX_READ_ATTEMPTS ∧
    (∀ k, k < MAX_READ_ATTEMPTS →
      (∀ j, j < k → (dht22_read_single_attempt (traces j)).ret ≠ 0) →
      (dht22_read_single_attempt (traces k)).ret = 0 →
      (∀ n, term n = false) →
      (pollCycle traces term).attemptsMade = k + 1 ∧
      (pollCycle traces term).sleeps = k ∧
      (pollCycle traces term).published =
        some ((dht22_read_single_attempt (traces k)).temperature,
          (dht22_read_single_attempt (traces k)).humidity)) ∧
    ((∀ n, n < MAX_READ_ATTEMPTS →
        (dht22_read_single_attempt (traces n)).ret ≠ 0) →
      (∀ n, term n = false) →
      (pollCycle traces term).attemptsMade = MAX_READ_ATTEMPTS ∧
      (pollCycle traces term).sleeps = MAX_READ_ATTEMPTS - 1) ∧
    (∀ k, k < MAX_READ_ATTEMPTS →
      (∀ j, j < k → (dht22_read_single_attempt (traces j)).ret ≠ 0) →
      (∀ n, n < 2 * k → term n = false) →
      term (2 * k) = true →
      (pollCycle traces term).attemptsMade = k ∧
      (pollCycle traces term).published = none) := by
  refine ⟨?_, ?_, ?_, ?_⟩
  · have h := pollCycleGo_attempts_le traces term [0, 1, 2, 3, 4] 0 0 0
    simpa [pollCycle, MAX_READ_ATTEMPTS] using h
  · intro k hk hprev hsucc hterm
    simp only [MAX_READ_ATTEMPTS] at hk
    interval_cases k
    · simp [pollCycle, pollCycleGo, hterm, hsucc, MAX_READ_ATTEMPTS]
    · have h0 := hprev 0 (by omega)
      simp [pollCycle, pollCycleGo, hterm, hsucc, h0, MAX_READ_ATTEMPTS]
    · have h0 := hprev 0 (by omega)
      have h1 := hprev 1 (by omega)
      simp [pollCycle, pollCycleGo, hterm, hsucc, h0, h1, MAX_READ_ATTEMPTS]
    · have h0 := hprev 0 (by omega)
      have h1 := hprev 1 (by omega)
      have h2 := hprev 2 (by omega)
      simp [pollCycle, pollCycleGo, hterm, hsucc, h0, h1, h2, MAX_READ_ATTEMPTS]
    · have h0 := hprev 0 (by omega)
      have h1 := hprev 1 (by omega)
      have h2 := hprev 2 (by omega)
      have h3 := hprev 3 (by omega)
      simp [pollCycle, pollCycleGo, hterm, hsucc, h0, h1, h2, h3,
        MAX_READ_ATTEMPTS]
  · intro hfail hterm
    have h0 := hfail 0 (by simp [MAX_READ_ATTEMPTS])
    have h1 := hfail 1 (by simp [MAX_READ_ATTEMPTS])
    have h2 := hfail 2 (by simp [MAX_READ_ATTEMPTS])
    have h3 := hfail 3 (by simp [MAX_READ_ATTEMPTS])
    have h4 := hfail 4 (by simp [MAX_READ_ATTEMPTS])
    simp [pollCycle, pollCycleGo, hterm, h0, h1, h2, h3, h4, MAX_READ_ATTEMPTS]
  · intro k hk hprev hterm htrue
    simp only [MAX_READ_ATTEMPTS] at hk
    interval_cases k
    · have ht : term 0 = true := by simpa using htrue
      simp [pollCycle, pollCycleGo, ht]
    · have ht : term 2 = true := by simpa using htrue
      have ht0 := hterm 0 (by omega)
      have ht1 := hterm 1 (by omega)
      have h0 := hprev 0 (by omega)
      simp [pollCycle, pollCycleGo, ht, ht0, ht1, h0, MAX_READ_ATTEMPTS]
    · have ht : term 4 = true := by simpa using htrue
      have ht0 := hterm 0 (by omega)
      have ht1 := hterm 1 (by omega)
      have ht2 := hterm 2 (by omega)
      have ht3 := hterm 3 (by omega)
      have h0 := hprev 0 (by omega)
      have h1 := hprev 1 (by omega)
      simp [pollCycle, pollCycleGo, ht, ht0, ht1, ht2, ht3, h0, h1,
        MAX_READ_ATTEMPTS]
    · have ht : term 6 = true := by simpa using htrue
      have ht0 := hterm 0 (by omega)
      have ht1 := hterm 1 (by omega)
      have ht2 := hterm 2 (by omega)
      have ht3 := hterm 3 (by omega)
      have ht4 := hterm 4 (by omega)
      have ht5 := hterm 5 (by omega)
      have h0 := hprev 0 (by omega)
      have h1 := hprev 1 (by omega)
      have h2 := hprev 2 (by omega)
      simp [pollCycle, pollCycleGo, ht, ht0, ht1, ht2, ht3, ht4, ht5,
        h0, h1, h2, MAX_READ_ATTEMPTS]
    · have ht : term 8 = true := by simpa using htrue
      have ht0 := hterm 0 (by omega)
      have ht1 := hterm 1 (by omega)
      have ht2 := hterm 2 (by omega)
      have ht3 := hterm 3 (by omega)
      have ht4 := hterm 4 (by omega)
      have ht5 := hterm 5 (by omega)
      have ht6 := hterm 6 (by omega)
      have ht7 := hterm 7 (by omega)
      have h0 := hprev 0 (by omega)
      have h1 := hprev 1 (by omega)
      have h2 := hprev 2 (by omega)
      have h3 := hprev 3 (by omega)
      simp [pollCycle, pollCycleGo, ht, ht0, ht1, ht2, ht3, ht4, ht5, ht6,
        ht7, h0, h1, h2, h3, MAX_READ_ATTEMPTS]

/-- Witness for C6: with a good frame on every attempt and no stop
request, the cycle stops after the first attempt. -/
theorem C6_retry_policy_witness :
    (dht22_read_single_attempt goodPulses).ret = 0 ∧
    (pollCycle (fun _ => goodPulses) (fun _ => false)).attemptsMade = 1 :=
  ⟨by decide,
    ((C6_retry_policy (fun _ => goodPulses) (fun _ => false)).2.1 0 (by decide)
      (fun j hj => absurd hj (Nat.not_lt_zero j)) (by decide)
      (fun _ => rfl)).1⟩

/-- Claim C7: a poll cycle in which every attempt fails publishes nothing:
the shared reading cache is unchanged, so a subsequent
dht22_get_last_valid_reading still sees the prior reading (or no data). -/
theorem C7_failed_cycle_leaves_cache (traces : Nat → List Nat)
    (term : Nat → Bool) (s : DhtState)
    (hfail : ∀ n, n < MAX_READ_ATTEMPTS →
      (dht22_read_single_attempt (traces n)).ret ≠ 0) :
    (pollCycle traces term).published = none ∧
    applyCycle s (pollCycle traces term) = s ∧
    dht22_get_last_valid_reading (applyCycle s (pollCycle traces term)) =
      dht22_get_last_valid_reading s := by
  have hnone : (pollCycle traces term).published = none := by
    apply pollCycleGo_published_none
    intro a ha
    apply hfail
    simp only [List.mem_cons, List.not_mem_nil, or_false] at ha
    rcases ha with rfl | rfl | rfl | rfl | rfl <;> decide
  have happ : applyCycle s (pollCycle traces term) = s := by
    simp [applyCycle, hnone]
  exact ⟨hnone, happ, by rw [happ]⟩

/-- Witness for C7: repeated corrupted frames leave a cached reading
(temperature 3, humidity 6, pin 4) untouched. -/
theorem C7_failed_cycle_leaves_cache_witness :
    (dht22_read_single_attempt badPulses).ret ≠ 0 ∧
    applyCycle ⟨3, 6, true, 4, false⟩
      (pollCycle (fun _ => badPulses) (fun _ => false)) =
      (⟨3, 6, true, 4, false⟩ : DhtState) :=
  ⟨by decide,
    (C7_failed_cycle_leaves_cache (fun _ => badPulses) (fun _ => false)
      ⟨3, 6, true, 4, false⟩
      (fun _ _ =>
        (by decide : (dht22_read_single_attempt badPulses).ret ≠ 0))).2.1⟩

/-- Claim C8: after dht22_terminate the state is reset — g_data_available
is 0, dht22_get_last_valid_reading reports no data (returns 1, touching no
out-parameter), and the pin is cleared to -1 — and terminate with no pin
configured is a no-op on the module state.  The hypothesis is the module
invariant that a reading is only ever available while a pin is configured
(initially pin = -1 and available = 0; start_polling sets the pin before
the polling thread can publish; terminate clears both together). -/
theorem C8_terminate_resets (s : DhtState)
    (hinv : s.pin = -1 → s.available = false) :
    (dht22_terminate s).available = false ∧
    (dht22_terminate s).pin = -1 ∧
    (dht22_get_last_valid_reading (dht22_terminate s)).reading = none ∧
    (dht22_get_last_valid_reading (dht22_terminate s)).ret = 1 ∧
    (s.pin = -1 → dht22_terminate s = s) := by
  unfold dht22_terminate
  by_cases h : s.pin ≠ -1
  · rw [if_pos h]
    exact ⟨rfl, rfl, by simp [dht22_get_last_valid_reading],
      by simp [dht22_get_last_valid_reading], fun hpin => absurd hpin h⟩
  · rw [if_neg h]
    push_neg at h
    have hav : s.available = false := hinv h
    exact ⟨hav, h, by simp [dht22_get_last_valid_reading, hav],
      by simp [dht22_get_last_valid_reading, hav], fun _ => rfl⟩

/-- Witness for C8 at a running state with a published reading. -/
theorem C8_terminate_resets_witness :
    (dht22_terminate ⟨3, 6, true, 4, false⟩).available = false ∧
    (dht22_terminate ⟨3, 6, true, 4, false⟩).pin = -1 :=
  ⟨(C8_terminate_resets ⟨3, 6, true, 4, false⟩
      (fun hpin => absurd hpin (by decide))).1,
    (C8_terminate_resets ⟨3, 6, true, 4, false⟩
      (fun hpin => absurd hpin (by decide))).2.1⟩

/-- Claim C10 counterexample: start from the state left by a terminate
(pin = -1, g_terminate_thread = 1) and let pthread_create fail.  The call
returns -1 and restores the pin, but it has cleared g_terminate_thread to
0, so the module state is not "as it was before the call". -/
theorem C10_counterexample :
    (dht22_start_polling ⟨0, 0, false, -1, true⟩ 4 true).ret = -1 ∧
    (dht22_start_polling ⟨0, 0, false, -1, true⟩ 4 true).state.pin = -1 ∧
    (dht22_start_polling ⟨0, 0, false, -1, true⟩ 4 true).state ≠
      (⟨0, 0, false, -1, true⟩ : DhtState) := by decide

/-- Claim C10 as amended: when thread creation fails, start_polling
returns -1, restores the pin to -1, spawns nothing, and leaves the
reading cache (temperature, humidity, availability) unchanged — but the
terminate flag is unconditionally cleared to 0, so the full module state
can differ from the pre-call state. -/
theorem C10_create_failure (s : DhtState) (gpioPin : Int)
    (h : s.pin = -1) :
    dht22_start_polling s gpioPin true =
      { ret := -1, state := { s with termFlag := false }, spawned := false } := by
  obtain ⟨t, hu, av, p, tf⟩ := s
  simp only at h
  subst h
  rfl

/-- Witness for the amended C10 from the pristine initial state. -/
theorem C10_create_failure_witness :
    initState.pin = -1 ∧
    dht22_start_polling initState 4 true =
      { ret := -1, state := { initState with termFlag := false },
        spawned := false } :=
  ⟨rfl, C10_create_failure initState 4 rfl⟩

end DHT22
